import Mathlib

/-!
Shallow embedding of `src/target/adiv6.c` (Black Magic Debug, ADIv6 transport
layer).  The debug transport is modelled as an explicit event trace together
with an oracle list of values that successive `adiv5_dp_read` calls return;
every function of the C file becomes a state-passing Lean function over this
model.  Machine integers are `Nat` with explicit `% 2 ^ 32` / `% 2 ^ 16`
truncations exactly where the C code performs a cast or passes an argument of
a narrower type.
-/

namespace Adiv6

/-! ### Protocol constants

The register offsets, bank numbers and masks below are declared in headers
(`adiv5_internal.h` / `adiv6_internal.h`) that are not part of the given
source; their values are the fixed ADIv5/ADIv6 protocol constants the spec
refers to.  None of the theorems below depend on the particular values except
`ADIV6_DP_BASEPTR0_VALID`, which the spec pins to bit 0 of the low half. -/

/-- DP SELECT register offset. -/
def ADIV5_DP_SELECT : Nat := 0x8

/-- DP bank selector value 1 (bank holding DPIDR1). -/
def ADIV5_DP_BANK1 : Nat := 1

/-- DP bank selector value 2 (bank holding BASEPTR0). -/
def ADIV5_DP_BANK2 : Nat := 2

/-- DP bank selector value 3 (bank holding BASEPTR1). -/
def ADIV5_DP_BANK3 : Nat := 3

/-- DP bank selector value 5 (bank holding SELECT1). -/
def ADIV5_DP_BANK5 : Nat := 5

/-- Flag marking a register address as an AP (not DP) access. -/
def ADIV5_APnDP : Nat := 0x100

/-- Offset of the DPIDR1 register (on bank 1). -/
def ADIV6_DP_DPIDR1 : Nat := 0x0

/-- Offset of the BASEPTR0 register (on bank 2). -/
def ADIV6_DP_BASEPTR0 : Nat := 0x0

/-- Offset of the BASEPTR1 register (on bank 3). -/
def ADIV6_DP_BASEPTR1 : Nat := 0x0

/-- Offset of the SELECT1 register (on bank 5). -/
def ADIV6_DP_SELECT1 : Nat := 0x4

/-- Modelled from the spec: mask extracting the ASIZE (address width) field of
DPIDR1; the header carrying its value is not in the given source. -/
def ADIV6_DP_DPIDR1_ASIZE_MASK : Nat := 0x7f

/-- Modelled from the spec: the base-address validity flag is bit 0 of the low
half of the base pointer ("bit 0 of the low half is a validity flag"). -/
def ADIV6_DP_BASEPTR0_VALID : Nat := 1

/-- Modelled from the spec: mask clearing the low alignment/flag bits of a
validated base address. -/
def ADIV6_DP_BASE_ADDRESS_MASK : Nat := 0xfffffffffffff000

/-- Modelled from the spec: mask selecting the bank bits of an AP register
offset. -/
def ADIV6_AP_BANK_MASK : Nat := 0xfff0

/-- Offset of the CIDR0 component-identification register. -/
def CIDR0_OFFSET : Nat := 0xff0

/-- The fixed CoreSight component-ID preamble constant. -/
def CID_PREAMBLE : Nat := 0xb105000d

/-- Mask selecting the component-class nibble of a CIDR value. -/
def CID_CLASS_MASK : Nat := 0xf000

/-- Shift amount bringing the class nibble down to bit 0. -/
def CID_CLASS_SHIFT : Nat := 12

/-! ### Transport model -/

/-- One register access performed on the debug transport: either a read of a
register address or a write of a value to a register address. -/
inductive DpEvent
  | read (addr : Nat)
  | write (addr : Nat) (value : Nat)
deriving DecidableEq

/-- The register address an event touches. -/
def DpEvent.addr : DpEvent → Nat
  | .read a => a
  | .write a _ => a

/-- Transport state: the trace of accesses performed so far, and the oracle
list of values the remaining reads will return (the hardware may answer
anything, so the responses are universally quantified data). -/
structure DpState where
  events : List DpEvent
  pending : List Nat
deriving DecidableEq

/-- The identity of the function installed in the DP handle's `ap_read` slot. -/
inductive ApReadFn
  | nullHandler
  | adiv6_ap_reg_read
deriving DecidableEq

/-- The identity of the function installed in the DP handle's `ap_write` slot. -/
inductive ApWriteFn
  | nullHandler
  | adiv6_ap_reg_write
deriving DecidableEq

/-- The DP handle fields this core touches (`ap_read`, `ap_write`,
`address_width`), plus `rest`, an abstraction of every other field of the C
`adiv5_debug_port_s`, which this file never reads or writes. -/
structure adiv5_debug_port_s where
  ap_read : ApReadFn
  ap_write : ApWriteFn
  address_width : Nat
  rest : Nat
deriving DecidableEq

/-- The ADIv6 access-port handle: its 64-bit address in the DP's resource
address space (the back-reference to the DP is the single threaded
`DpState`). -/
structure adiv6_access_port_s where
  ap_address : Nat
deriving DecidableEq

/-- Modelled from the spec: the external transport primitive
`dp_write(dp, register_address: u16, value: u32)`; it appends a write event to
the trace. -/
def adiv5_dp_write (s : DpState) (addr value : Nat) : DpState :=
  { s with events := s.events ++ [DpEvent.write addr value] }

/-- Modelled from the spec: the external transport primitive
`dp_read(dp, register_address: u16) -> u32`; it consumes the next oracle value
(truncated to 32 bits) and appends a read event to the trace. -/
def adiv5_dp_read (s : DpState) (addr : Nat) : Nat × DpState :=
  (s.pending.headD 0 % 2 ^ 32,
    { events := s.events ++ [DpEvent.read addr], pending := s.pending.tail })

/-! ### The functions of `adiv6.c` -/

/-- `adiv6_dp_read_base_address`: select bank 2, read BASEPTR0, select bank 3,
read BASEPTR1, and recombine as `baseptr0 | ((uint64_t)baseptr1 << 32)`. -/
def adiv6_dp_read_base_address (s : DpState) : Nat × DpState :=
  let s1 := adiv5_dp_write s ADIV5_DP_SELECT ADIV5_DP_BANK2
  let r0 := adiv5_dp_read s1 ADIV6_DP_BASEPTR0
  let s2 := adiv5_dp_write r0.2 ADIV5_DP_SELECT ADIV5_DP_BANK3
  let r1 := adiv5_dp_read s2 ADIV6_DP_BASEPTR1
  (r0.1 ||| (r1.1 <<< 32), r1.2)

/-- `adiv6_dp_read_id`: program SELECT1 (high half of the AP address) first,
then SELECT (low half plus `addr & 0x0ff0`), then read the four CIDR locations
and keep only the low byte of each, placing read `i`'s byte at bit `i * 8`. -/
def adiv6_dp_read_id (ap : adiv6_access_port_s) (addr0 : Nat) (s : DpState) :
    Nat × DpState :=
  let addr := addr0 % 2 ^ 16
  let s1 := adiv5_dp_write s ADIV5_DP_SELECT ADIV5_DP_BANK5
  let s2 := adiv5_dp_write s1 ADIV6_DP_SELECT1 (ap.ap_address >>> 32 % 2 ^ 32)
  let s3 := adiv5_dp_write s2 ADIV5_DP_SELECT
    (ap.ap_address % 2 ^ 32 ||| (addr &&& 0x0ff0))
  List.foldl
    (fun acc i =>
      let r := adiv5_dp_read acc.2 (ADIV5_APnDP ||| (i <<< 2))
      (acc.1 ||| ((r.1 &&& 0xff) <<< (i * 8)), r.2))
    (0, s3) [0, 1, 2, 3]

/-- `adiv6_component_probe`: build a synthetic AP at `base_address`, read its
CIDR, fail on preamble mismatch; the class-dispatch branch is a stub that also
returns false.  The DP handle is only read, never written, so it is not
returned. -/
def adiv6_component_probe (dp : adiv5_debug_port_s) (base_address : Nat)
    (entry_number : Nat) (s : DpState) : Bool × DpState :=
  let base_ap : adiv6_access_port_s := { ap_address := base_address }
  let rc := adiv6_dp_read_id base_ap CIDR0_OFFSET s
  let cidr := rc.1
  if cidr &&& ((2 ^ 32 - 1) ^^^ CID_CLASS_MASK) ≠ CID_PREAMBLE then
    (false, rc.2)
  else
    let _cid_class := (cidr &&& CID_CLASS_MASK) >>> CID_CLASS_SHIFT
    (false, rc.2)

/-- `adiv6_dp_init`: install the AP handlers, read DPIDR1 (bank 1) and store
the masked address width, read and validate the base address, then probe the
root component.  Returns the C result together with the mutated handle and the
final transport state. -/
def adiv6_dp_init (dp : adiv5_debug_port_s) (s : DpState) :
    Bool × adiv5_debug_port_s × DpState :=
  let dp1 := { dp with ap_read := ApReadFn.adiv6_ap_reg_read,
                       ap_write := ApWriteFn.adiv6_ap_reg_write }
  let s1 := adiv5_dp_write s ADIV5_DP_SELECT ADIV5_DP_BANK1
  let r := adiv5_dp_read s1 ADIV6_DP_DPIDR1
  let dpidr1 := r.1
  let dp2 := { dp1 with address_width := dpidr1 &&& ADIV6_DP_DPIDR1_ASIZE_MASK }
  let rb := adiv6_dp_read_base_address r.2
  let base_address := rb.1
  let s3 := rb.2
  if base_address &&& ADIV6_DP_BASEPTR0_VALID = 0 then
    (false, dp2, s3)
  else if base_address &&& ((1 <<< dp2.address_width) - 1) ≠ base_address then
    (false, dp2, s3)
  else
    let base := base_address &&& ADIV6_DP_BASE_ADDRESS_MASK
    let rp := adiv6_component_probe dp2 base 0 s3
    (rp.1, dp2, rp.2)

/-- `adiv6_ap_reg_read`: program SELECT1 with the high half of the AP address
(after selecting bank 5), then SELECT with the low half or-ed with the
redistributed bank bits of `addr`, then read the target offset. -/
def adiv6_ap_reg_read (ap : adiv6_access_port_s) (addr0 : Nat) (s : DpState) :
    Nat × DpState :=
  let addr := addr0 % 2 ^ 16
  let s1 := adiv5_dp_write s ADIV5_DP_SELECT ADIV5_DP_BANK5
  let s2 := adiv5_dp_write s1 ADIV6_DP_SELECT1 (ap.ap_address >>> 32 % 2 ^ 32)
  let bank := addr &&& ADIV6_AP_BANK_MASK
  let s3 := adiv5_dp_write s2 ADIV5_DP_SELECT
    (ap.ap_address % 2 ^ 32 ||| ((bank &&& 0xf000) >>> 4) ||| (bank &&& 0xf0))
  adiv5_dp_read s3 addr

/-- `adiv6_ap_reg_write`: same SELECT1-then-SELECT sequence as the read
handler, then write `value` to the target offset. -/
def adiv6_ap_reg_write (ap : adiv6_access_port_s) (addr0 value : Nat)
    (s : DpState) : DpState :=
  let addr := addr0 % 2 ^ 16
  let s1 := adiv5_dp_write s ADIV5_DP_SELECT ADIV5_DP_BANK5
  let s2 := adiv5_dp_write s1 ADIV6_DP_SELECT1 (ap.ap_address >>> 32 % 2 ^ 32)
  let bank := addr &&& ADIV6_AP_BANK_MASK
  let s3 := adiv5_dp_write s2 ADIV5_DP_SELECT
    (ap.ap_address % 2 ^ 32 ||| ((bank &&& 0xf000) >>> 4) ||| (bank &&& 0xf0))
  adiv5_dp_write s3 addr (value % 2 ^ 32)

/-! ### The register-window codec operations named by the spec -/

/-- `split_wide_address`: the split of a 64-bit address the AP proxy performs,
low half by the `(uint32_t)` cast, high half by `>> 32` then the cast
(`adiv6_ap_reg_read`, lines 137-142). -/
def split_wide_address (a : Nat) : Nat × Nat :=
  (a % 2 ^ 32, a >>> 32 % 2 ^ 32)

/-- `combine`: the recombination `baseptr0 | ((uint64_t)baseptr1 << 32)`
performed by `adiv6_dp_read_base_address` (line 59). -/
def combine (low high : Nat) : Nat :=
  low ||| (high <<< 32)

/-! ### Trace lemmas for the AP proxy handlers -/

/-- The exact access trace `adiv6_ap_reg_read` appends: bank-5 select, SELECT1
write, SELECT write, then the read of the target offset. -/
theorem adiv6_ap_reg_read_events (ap : adiv6_access_port_s) (addr0 : Nat)
    (s : DpState) :
    (adiv6_ap_reg_read ap addr0 s).2.events =
      s.events ++
        [DpEvent.write ADIV5_DP_SELECT ADIV5_DP_BANK5,
         DpEvent.write ADIV6_DP_SELECT1 (ap.ap_address >>> 32 % 2 ^ 32),
         DpEvent.write ADIV5_DP_SELECT
           (ap.ap_address % 2 ^ 32 |||
             ((addr0 % 2 ^ 16 &&& ADIV6_AP_BANK_MASK &&& 0xf000) >>> 4) |||
             (addr0 % 2 ^ 16 &&& ADIV6_AP_BANK_MASK &&& 0xf0)),
         DpEvent.read (addr0 % 2 ^ 16)] := by
  simp [adiv6_ap_reg_read, adiv5_dp_write, adiv5_dp_read]

/-- The exact access trace `adiv6_ap_reg_write` appends: bank-5 select, SELECT1
write, SELECT write, then the write of the target offset. -/
theorem adiv6_ap_reg_write_events (ap : adiv6_access_port_s)
    (addr0 value : Nat) (s : DpState) :
    (adiv6_ap_reg_write ap addr0 value s).events =
      s.events ++
        [DpEvent.write ADIV5_DP_SELECT ADIV5_DP_BANK5,
         DpEvent.write ADIV6_DP_SELECT1 (ap.ap_address >>> 32 % 2 ^ 32),
         DpEvent.write ADIV5_DP_SELECT
           (ap.ap_address % 2 ^ 32 |||
             ((addr0 % 2 ^ 16 &&& ADIV6_AP_BANK_MASK &&& 0xf000) >>> 4) |||
             (addr0 % 2 ^ 16 &&& ADIV6_AP_BANK_MASK &&& 0xf0)),
         DpEvent.write (addr0 % 2 ^ 16) (value % 2 ^ 32)] := by
  simp [adiv6_ap_reg_write, adiv5_dp_write, adiv5_dp_read]

/-! ### Claims -/

/-- C8: `adiv6_component_probe` returns false for every DP handle, base
address, entry number and transport state — even when the CIDR preamble check
passes — because the class-dispatch branch is a stub that reports failure. -/
theorem claim_C8_component_probe_always_false (dp : adiv5_debug_port_s)
    (base entry : Nat) (s : DpState) :
    (adiv6_component_probe dp base entry s).1 = false := by
  simp only [adiv6_component_probe]
  split <;> rfl

/-- C6: whenever the CIDR value read back has its non-class bits (bits outside
`CID_CLASS_MASK`) different from `CID_PREAMBLE`, `adiv6_component_probe`
returns false, whatever the class nibble holds. -/
theorem claim_C6_preamble_mismatch_fails (dp : adiv5_debug_port_s)
    (base entry : Nat) (s : DpState)
    (h : (adiv6_dp_read_id { ap_address := base } CIDR0_OFFSET s).1 &&&
        ((2 ^ 32 - 1) ^^^ CID_CLASS_MASK) ≠ CID_PREAMBLE) :
    (adiv6_component_probe dp base entry s).1 = false := by
  simp only [adiv6_component_probe]
  rw [if_pos h]

/-- Witness for C6 at a concrete input: an all-zero oracle yields CIDR 0,
which fails the preamble check, and the probe indeed reports failure. -/
theorem claim_C6_witness :
    ((adiv6_dp_read_id { ap_address := 0x40001000 } CIDR0_OFFSET
        { events := [], pending := [] }).1 &&&
      ((2 ^ 32 - 1) ^^^ CID_CLASS_MASK) ≠ CID_PREAMBLE) ∧
    (adiv6_component_probe
        { ap_read := ApReadFn.nullHandler, ap_write := ApWriteFn.nullHandler,
          address_width := 40, rest := 0 }
        0x40001000 0 { events := [], pending := [] }).1 = false :=
  ⟨by decide,
   claim_C6_preamble_mismatch_fails _ _ _ _ (by decide)⟩

/-- C9: if `adiv6_dp_init` returns false, the DP handle it hands back still
has the ADIv6 AP handlers installed in `ap_read`/`ap_write`, because the
installation happens before base-address validation. -/
theorem claim_C9_handlers_installed_on_failure (dp : adiv5_debug_port_s)
    (s : DpState) (h : (adiv6_dp_init dp s).1 = false) :
    ((adiv6_dp_init dp s).2.1).ap_read = ApReadFn.adiv6_ap_reg_read ∧
    ((adiv6_dp_init dp s).2.1).ap_write = ApWriteFn.adiv6_ap_reg_write := by
  refine ⟨?_, ?_⟩ <;>
    (simp only [adiv6_dp_init]; split <;> first | rfl | (split <;> rfl))

/-- Witness for C9 at a concrete input: with an all-zero oracle the base
address is invalid, `adiv6_dp_init` returns false, and the returned handle has
both ADIv6 handlers installed. -/
theorem claim_C9_witness :
    (adiv6_dp_init
        { ap_read := ApReadFn.nullHandler, ap_write := ApWriteFn.nullHandler,
          address_width := 0, rest := 7 }
        { events := [], pending := [] }).1 = false ∧
    ((adiv6_dp_init
        { ap_read := ApReadFn.nullHandler, ap_write := ApWriteFn.nullHandler,
          address_width := 0, rest := 7 }
        { events := [], pending := [] }).2.1).ap_read =
      ApReadFn.adiv6_ap_reg_read ∧
    ((adiv6_dp_init
        { ap_read := ApReadFn.nullHandler, ap_write := ApWriteFn.nullHandler,
          address_width := 0, rest := 7 }
        { events := [], pending := [] }).2.1).ap_write =
      ApWriteFn.adiv6_ap_reg_write :=
  ⟨by decide, claim_C9_handlers_installed_on_failure _ _ (by decide)⟩

/-- C1: on every call of either installed AP handler, the write programming
the high address half into SELECT1 happens strictly before the write
programming the AP address low half and bank bits into SELECT, and no access
to the target offset occurs between the two. -/
theorem claim_C1_select1_written_before_select (ap : adiv6_access_port_s)
    (addr0 value : Nat) (s : DpState) (h : addr0 < 2 ^ 16) :
    (∃ i j : Nat, i < j ∧
      ((adiv6_ap_reg_read ap addr0 s).2.events)[i]? =
        some (DpEvent.write ADIV6_DP_SELECT1 (ap.ap_address >>> 32 % 2 ^ 32)) ∧
      ((adiv6_ap_reg_read ap addr0 s).2.events)[j]? =
        some (DpEvent.write ADIV5_DP_SELECT
          (ap.ap_address % 2 ^ 32 |||
            ((addr0 &&& ADIV6_AP_BANK_MASK &&& 0xf000) >>> 4) |||
            (addr0 &&& ADIV6_AP_BANK_MASK &&& 0xf0))) ∧
      ∀ k (e : DpEvent), i < k → k < j →
        ((adiv6_ap_reg_read ap addr0 s).2.events)[k]? = some e →
        e.addr ≠ addr0) ∧
    (∃ i j : Nat, i < j ∧
      ((adiv6_ap_reg_write ap addr0 value s).events)[i]? =
        some (DpEvent.write ADIV6_DP_SELECT1 (ap.ap_address >>> 32 % 2 ^ 32)) ∧
      ((adiv6_ap_reg_write ap addr0 value s).events)[j]? =
        some (DpEvent.write ADIV5_DP_SELECT
          (ap.ap_address % 2 ^ 32 |||
            ((addr0 &&& ADIV6_AP_BANK_MASK &&& 0xf000) >>> 4) |||
            (addr0 &&& ADIV6_AP_BANK_MASK &&& 0xf0))) ∧
      ∀ k (e : DpEvent), i < k → k < j →
        ((adiv6_ap_reg_write ap addr0 value s).events)[k]? = some e →
        e.addr ≠ addr0) := by
  have hm : addr0 % 65536 = addr0 := Nat.mod_eq_of_lt (by omega)
  constructor
  · refine ⟨s.events.length + 1, s.events.length + 2, by omega, ?_, ?_, ?_⟩
    · rw [adiv6_ap_reg_read_events, List.getElem?_append_right (by omega)]
      simp [hm, Nat.add_sub_cancel_left]
    · rw [adiv6_ap_reg_read_events, List.getElem?_append_right (by omega)]
      simp [hm, Nat.add_sub_cancel_left]
    · intro k e hik hkj _
      omega
  · refine ⟨s.events.length + 1, s.events.length + 2, by omega, ?_, ?_, ?_⟩
    · rw [adiv6_ap_reg_write_events, List.getElem?_append_right (by omega)]
      simp [hm, Nat.add_sub_cancel_left]
    · rw [adiv6_ap_reg_write_events, List.getElem?_append_right (by omega)]
      simp [hm, Nat.add_sub_cancel_left]
    · intro k e hik hkj _
      omega

/-- Witness for C1 at a concrete input: AP address `0x1200000340`, target
offset `0xd23`, empty starting trace. -/
theorem claim_C1_witness :
    (0xd23 : Nat) < 2 ^ 16 ∧
    ((∃ i j : Nat, i < j ∧
      ((adiv6_ap_reg_read { ap_address := 0x1200000340 } 0xd23
          { events := [], pending := [] }).2.events)[i]? =
        some (DpEvent.write ADIV6_DP_SELECT1
          ((0x1200000340 : Nat) >>> 32 % 2 ^ 32)) ∧
      ((adiv6_ap_reg_read { ap_address := 0x1200000340 } 0xd23
          { events := [], pending := [] }).2.events)[j]? =
        some (DpEvent.write ADIV5_DP_SELECT
          ((0x1200000340 : Nat) % 2 ^ 32 |||
            (((0xd23 : Nat) &&& ADIV6_AP_BANK_MASK &&& 0xf000) >>> 4) |||
            ((0xd23 : Nat) &&& ADIV6_AP_BANK_MASK &&& 0xf0))) ∧
      ∀ k (e : DpEvent), i < k → k < j →
        ((adiv6_ap_reg_read { ap_address := 0x1200000340 } 0xd23
            { events := [], pending := [] }).2.events)[k]? = some e →
        e.addr ≠ 0xd23) ∧
    (∃ i j : Nat, i < j ∧
      ((adiv6_ap_reg_write { ap_address := 0x1200000340 } 0xd23 0x55aa
          { events := [], pending := [] }).events)[i]? =
        some (DpEvent.write ADIV6_DP_SELECT1
          ((0x1200000340 : Nat) >>> 32 % 2 ^ 32)) ∧
      ((adiv6_ap_reg_write { ap_address := 0x1200000340 } 0xd23 0x55aa
          { events := [], pending := [] }).events)[j]? =
        some (DpEvent.write ADIV5_DP_SELECT
          ((0x1200000340 : Nat) % 2 ^ 32 |||
            (((0xd23 : Nat) &&& ADIV6_AP_BANK_MASK &&& 0xf000) >>> 4) |||
            ((0xd23 : Nat) &&& ADIV6_AP_BANK_MASK &&& 0xf0))) ∧
      ∀ k (e : DpEvent), i < k → k < j →
        ((adiv6_ap_reg_write { ap_address := 0x1200000340 } 0xd23 0x55aa
            { events := [], pending := [] }).events)[k]? = some e →
        e.addr ≠ 0xd23)) :=
  ⟨by decide,
   claim_C1_select1_written_before_select { ap_address := 0x1200000340 }
     0xd23 0x55aa { events := [], pending := [] } (by decide)⟩

/-- C5: both AP handlers program SELECT with the low 32 bits of the AP address
or-ed with the redistributed bank bits of the offset: with
`bank = addr &&& ADIV6_AP_BANK_MASK`, the contribution is
`((bank &&& 0xf000) >>> 4) ||| (bank &&& 0xf0)`. -/
theorem claim_C5_select_bank_bit_layout (ap : adiv6_access_port_s)
    (addr0 value : Nat) (s : DpState) (h : addr0 < 2 ^ 16) :
    ((adiv6_ap_reg_read ap addr0 s).2.events)[s.events.length + 2]? =
      some (DpEvent.write ADIV5_DP_SELECT
        (ap.ap_address % 2 ^ 32 |||
          (((addr0 &&& ADIV6_AP_BANK_MASK) &&& 0xf000) >>> 4) |||
          ((addr0 &&& ADIV6_AP_BANK_MASK) &&& 0xf0))) ∧
    ((adiv6_ap_reg_write ap addr0 value s).events)[s.events.length + 2]? =
      some (DpEvent.write ADIV5_DP_SELECT
        (ap.ap_address % 2 ^ 32 |||
          (((addr0 &&& ADIV6_AP_BANK_MASK) &&& 0xf000) >>> 4) |||
          ((addr0 &&& ADIV6_AP_BANK_MASK) &&& 0xf0))) := by
  have hm : addr0 % 65536 = addr0 := Nat.mod_eq_of_lt (by omega)
  constructor
  · rw [adiv6_ap_reg_read_events, List.getElem?_append_right (by omega)]
    simp [hm, Nat.add_sub_cancel_left]
  · rw [adiv6_ap_reg_write_events, List.getElem?_append_right (by omega)]
    simp [hm, Nat.add_sub_cancel_left]

/-- Witness for C5 at a concrete input: offset `0xd23` against AP address
`0x1200000340` programs SELECT with `0x340 ||| 0xd0 ||| 0x20`. -/
theorem claim_C5_witness :
    (0xd23 : Nat) < 2 ^ 16 ∧
    (((adiv6_ap_reg_read { ap_address := 0x1200000340 } 0xd23
        { events := [], pending := [] }).2.events)[
          ([] : List DpEvent).length + 2]? =
      some (DpEvent.write ADIV5_DP_SELECT
        ((0x1200000340 : Nat) % 2 ^ 32 |||
          ((((0xd23 : Nat) &&& ADIV6_AP_BANK_MASK) &&& 0xf000) >>> 4) |||
          (((0xd23 : Nat) &&& ADIV6_AP_BANK_MASK) &&& 0xf0))) ∧
    ((adiv6_ap_reg_write { ap_address := 0x1200000340 } 0xd23 0x55aa
        { events := [], pending := [] }).events)[
          ([] : List DpEvent).length + 2]? =
      some (DpEvent.write ADIV5_DP_SELECT
        ((0x1200000340 : Nat) % 2 ^ 32 |||
          ((((0xd23 : Nat) &&& ADIV6_AP_BANK_MASK) &&& 0xf000) >>> 4) |||
          (((0xd23 : Nat) &&& ADIV6_AP_BANK_MASK) &&& 0xf0)))) :=
  ⟨by decide,
   claim_C5_select_bank_bit_layout { ap_address := 0x1200000340 } 0xd23 0x55aa
     { events := [], pending := [] } (by decide)⟩

/-- C10: on every execution, `adiv6_dp_init` mutates exactly the `ap_read`,
`ap_write` and `address_width` fields of the handle and nothing else, and
`address_width` is always the DPIDR1 read value masked by the ASIZE mask —
also on executions that return false. -/
theorem claim_C10_dp_init_frame (dp : adiv5_debug_port_s) (s : DpState) :
    (adiv6_dp_init dp s).2.1 =
      { dp with
        ap_read := ApReadFn.adiv6_ap_reg_read,
        ap_write := ApWriteFn.adiv6_ap_reg_write,
        address_width :=
          (adiv5_dp_read (adiv5_dp_write s ADIV5_DP_SELECT ADIV5_DP_BANK1)
              ADIV6_DP_DPIDR1).1 &&& ADIV6_DP_DPIDR1_ASIZE_MASK } := by
  simp only [adiv6_dp_init]
  split <;> first | rfl | (split <;> rfl)

/-- C2: splitting a 64-bit address into low/high 32-bit halves and recombining
them as `low ||| (high <<< 32)` gives the address back. -/
theorem claim_C2_split_combine_roundtrip (a : Nat) (h : a < 2 ^ 64) :
    combine (split_wide_address a).1 (split_wide_address a).2 = a := by
  have h32 : a >>> 32 < 2 ^ 32 := by
    rw [Nat.shiftRight_eq_div_pow]
    omega
  show a % 2 ^ 32 ||| (a >>> 32 % 2 ^ 32) <<< 32 = a
  rw [Nat.mod_eq_of_lt h32]
  refine Nat.eq_of_testBit_eq fun i => ?_
  rcases Nat.lt_or_ge i 32 with hi | hi
  · have hni : ¬ 32 ≤ i := by omega
    simp only [Nat.testBit_lor, Nat.testBit_shiftLeft, Nat.testBit_mod_two_pow,
      ge_iff_le, decide_eq_true hi, decide_eq_false hni]
    simp
  · have hni : ¬ i < 32 := by omega
    have hadd : 32 + (i - 32) = i := by omega
    simp only [Nat.testBit_lor, Nat.testBit_shiftLeft, Nat.testBit_mod_two_pow,
      Nat.testBit_shiftRight, ge_iff_le, decide_eq_true hi,
      decide_eq_false hni, hadd]
    simp

/-- Witness for C2 at the concrete address `0x123456789abcdef0`. -/
theorem claim_C2_witness :
    (0x123456789abcdef0 : Nat) < 2 ^ 64 ∧
    combine (split_wide_address 0x123456789abcdef0).1
      (split_wide_address 0x123456789abcdef0).2 = 0x123456789abcdef0 :=
  ⟨by decide, claim_C2_split_combine_roundtrip _ (by decide)⟩

/-- C7: the CIDR value is assembled from the four reads by keeping only the
low byte of each and placing read `i`'s byte at bit `i * 8`; all higher bits
of each individual read value are ignored. -/
theorem claim_C7_cidr_byte_reconstruction (ap : adiv6_access_port_s)
    (addr0 : Nat) (evs : List DpEvent) (v0 v1 v2 v3 : Nat) (rest : List Nat)
    (h0 : v0 < 2 ^ 32) (h1 : v1 < 2 ^ 32) (h2 : v2 < 2 ^ 32)
    (h3 : v3 < 2 ^ 32) :
    (adiv6_dp_read_id ap addr0
        { events := evs, pending := v0 :: v1 :: v2 :: v3 :: rest }).1 =
      ((v0 &&& 0xff) ||| ((v1 &&& 0xff) <<< 8) ||| ((v2 &&& 0xff) <<< 16) |||
        ((v3 &&& 0xff) <<< 24)) := by
  have e0 : v0 % 4294967296 = v0 := Nat.mod_eq_of_lt (by omega)
  have e1 : v1 % 4294967296 = v1 := Nat.mod_eq_of_lt (by omega)
  have e2 : v2 % 4294967296 = v2 := Nat.mod_eq_of_lt (by omega)
  have e3 : v3 % 4294967296 = v3 := Nat.mod_eq_of_lt (by omega)
  simp [adiv6_dp_read_id, adiv5_dp_read, adiv5_dp_write, e0, e1, e2, e3]

/-- Witness for C7 at concrete read values whose high bytes are nonzero, so
that the byte extraction is exercised. -/
theorem claim_C7_witness :
    (0x1234560d : Nat) < 2 ^ 32 ∧ (0xff0010 : Nat) < 2 ^ 32 ∧
    (0x905 : Nat) < 2 ^ 32 ∧ (0xb1 : Nat) < 2 ^ 32 ∧
    (adiv6_dp_read_id { ap_address := 0x2000 } CIDR0_OFFSET
        { events := [],
          pending := [0x1234560d, 0xff0010, 0x905, 0xb1] }).1 =
      (((0x1234560d : Nat) &&& 0xff) ||| (((0xff0010 : Nat) &&& 0xff) <<< 8) |||
        (((0x905 : Nat) &&& 0xff) <<< 16) |||
        (((0xb1 : Nat) &&& 0xff) <<< 24)) :=
  ⟨by decide, by decide, by decide, by decide,
   claim_C7_cidr_byte_reconstruction { ap_address := 0x2000 } CIDR0_OFFSET []
     0x1234560d 0xff0010 0x905 0xb1 [] (by decide) (by decide) (by decide)
     (by decide)⟩

/-- Bit 0 of a 64-bit value recombined from halves is bit 0 of the low
half. -/
theorem lor_shiftLeft32_and_one (b0 b1 : Nat) :
    (b0 ||| b1 <<< 32) &&& 1 = b0 &&& 1 := by
  refine Nat.eq_of_testBit_eq fun i => ?_
  rcases eq_or_ne i 0 with rfl | hi
  · simp [Nat.testBit_and, Nat.testBit_lor, Nat.testBit_shiftLeft]
  · have h2 : (2 : Nat) ≤ 2 ^ i := by
      calc (2 : Nat) = 2 ^ 1 := by norm_num
      _ ≤ 2 ^ i := Nat.pow_le_pow_right (by omega) (by omega)
    have hx : ∀ x : Nat, (x % 2).testBit i = false := fun x =>
      Nat.testBit_lt_two_pow (lt_of_lt_of_le (Nat.mod_lt _ (by omega)) h2)
    simp [Nat.and_one_is_mod, hx]

/-- C4: when the validity flag bit of the discovered low base-address half is
clear, `adiv6_dp_init` returns false, and the trace shows no further register
access after the BASEPTR1 read — in particular no component probe and no CIDR
read is attempted. -/
theorem claim_C4_validity_bit_gates_discovery (dp : adiv5_debug_port_s)
    (evs : List DpEvent) (d b0 b1 : Nat) (rest : List Nat)
    (hd : d < 2 ^ 32) (h0 : b0 < 2 ^ 32) (h1 : b1 < 2 ^ 32)
    (hv : b0 &&& ADIV6_DP_BASEPTR0_VALID = 0) :
    adiv6_dp_init dp { events := evs, pending := d :: b0 :: b1 :: rest } =
      (false,
       { dp with
         ap_read := ApReadFn.adiv6_ap_reg_read,
         ap_write := ApWriteFn.adiv6_ap_reg_write,
         address_width := d &&& ADIV6_DP_DPIDR1_ASIZE_MASK },
       { events := evs ++
           [DpEvent.write ADIV5_DP_SELECT ADIV5_DP_BANK1,
            DpEvent.read ADIV6_DP_DPIDR1,
            DpEvent.write ADIV5_DP_SELECT ADIV5_DP_BANK2,
            DpEvent.read ADIV6_DP_BASEPTR0,
            DpEvent.write ADIV5_DP_SELECT ADIV5_DP_BANK3,
            DpEvent.read ADIV6_DP_BASEPTR1],
         pending := rest }) := by
  have ed : d % 4294967296 = d := Nat.mod_eq_of_lt (by omega)
  have e0 : b0 % 4294967296 = b0 := Nat.mod_eq_of_lt (by omega)
  have e1 : b1 % 4294967296 = b1 := Nat.mod_eq_of_lt (by omega)
  have hv' : (b0 ||| b1 <<< 32) &&& ADIV6_DP_BASEPTR0_VALID = 0 := by
    simp only [ADIV6_DP_BASEPTR0_VALID] at hv ⊢
    rw [lor_shiftLeft32_and_one]
    exact hv
  simp [adiv6_dp_init, adiv6_dp_read_base_address, adiv5_dp_read,
    adiv5_dp_write, ed, e0, e1, hv']

/-- Witness for C4: `DPIDR1 = 0xa8` (40-bit addressing), `BASEPTR0 = 0x1000`
with the validity bit clear, `BASEPTR1 = 0x12`: initialization fails right
after the BASEPTR1 read. -/
theorem claim_C4_witness :
    (0xa8 : Nat) < 2 ^ 32 ∧ (0x1000 : Nat) < 2 ^ 32 ∧ (0x12 : Nat) < 2 ^ 32 ∧
    (0x1000 : Nat) &&& ADIV6_DP_BASEPTR0_VALID = 0 ∧
    adiv6_dp_init
        { ap_read := ApReadFn.nullHandler, ap_write := ApWriteFn.nullHandler,
          address_width := 0, rest := 7 }
        { events := [], pending := [0xa8, 0x1000, 0x12] } =
      (false,
       { ap_read := ApReadFn.adiv6_ap_reg_read,
         ap_write := ApWriteFn.adiv6_ap_reg_write,
         address_width := (0xa8 : Nat) &&& ADIV6_DP_DPIDR1_ASIZE_MASK,
         rest := 7 },
       { events :=
           [DpEvent.write ADIV5_DP_SELECT ADIV5_DP_BANK1,
            DpEvent.read ADIV6_DP_DPIDR1,
            DpEvent.write ADIV5_DP_SELECT ADIV5_DP_BANK2,
            DpEvent.read ADIV6_DP_BASEPTR0,
            DpEvent.write ADIV5_DP_SELECT ADIV5_DP_BANK3,
            DpEvent.read ADIV6_DP_BASEPTR1],
         pending := [] }) :=
  ⟨by decide, by decide, by decide, by decide, by
    have := claim_C4_validity_bit_gates_discovery
      { ap_read := ApReadFn.nullHandler, ap_write := ApWriteFn.nullHandler,
        address_width := 0, rest := 7 }
      [] 0xa8 0x1000 0x12 [] (by decide) (by decide) (by decide) (by decide)
    simpa using this⟩

/-- C3: with discovered width `w = dpidr1 &&& ASIZE_MASK`, a candidate base
address that changes under masking to `w` bits (some bit at position `≥ w` is
set) makes `adiv6_dp_init` return false; a candidate untouched by the mask —
provided its validity bit let execution reach the width check — proceeds past
the check into the component probe of the masked base address. -/
theorem claim_C3_address_width_validation (dp : adiv5_debug_port_s)
    (evs : List DpEvent) (d b0 b1 : Nat) (rest : List Nat)
    (hd : d < 2 ^ 32) (h0 : b0 < 2 ^ 32) (h1 : b1 < 2 ^ 32) :
    ((b0 ||| b1 <<< 32) &&&
        ((1 <<< (d &&& ADIV6_DP_DPIDR1_ASIZE_MASK)) - 1) ≠ (b0 ||| b1 <<< 32) →
      (adiv6_dp_init dp
          { events := evs, pending := d :: b0 :: b1 :: rest }).1 = false) ∧
    ((b0 ||| b1 <<< 32) &&& ADIV6_DP_BASEPTR0_VALID ≠ 0 →
      (b0 ||| b1 <<< 32) &&&
        ((1 <<< (d &&& ADIV6_DP_DPIDR1_ASIZE_MASK)) - 1) = (b0 ||| b1 <<< 32) →
      adiv6_dp_init dp { events := evs, pending := d :: b0 :: b1 :: rest } =
        ((adiv6_component_probe
            { dp with
              ap_read := ApReadFn.adiv6_ap_reg_read,
              ap_write := ApWriteFn.adiv6_ap_reg_write,
              address_width := d &&& ADIV6_DP_DPIDR1_ASIZE_MASK }
            ((b0 ||| b1 <<< 32) &&& ADIV6_DP_BASE_ADDRESS_MASK) 0
            { events := evs ++
                [DpEvent.write ADIV5_DP_SELECT ADIV5_DP_BANK1,
                 DpEvent.read ADIV6_DP_DPIDR1,
                 DpEvent.write ADIV5_DP_SELECT ADIV5_DP_BANK2,
                 DpEvent.read ADIV6_DP_BASEPTR0,
                 DpEvent.write ADIV5_DP_SELECT ADIV5_DP_BANK3,
                 DpEvent.read ADIV6_DP_BASEPTR1],
              pending := rest }).1,
         { dp with
           ap_read := ApReadFn.adiv6_ap_reg_read,
           ap_write := ApWriteFn.adiv6_ap_reg_write,
           address_width := d &&& ADIV6_DP_DPIDR1_ASIZE_MASK },
         (adiv6_component_probe
            { dp with
              ap_read := ApReadFn.adiv6_ap_reg_read,
              ap_write := ApWriteFn.adiv6_ap_reg_write,
              address_width := d &&& ADIV6_DP_DPIDR1_ASIZE_MASK }
            ((b0 ||| b1 <<< 32) &&& ADIV6_DP_BASE_ADDRESS_MASK) 0
            { events := evs ++
                [DpEvent.write ADIV5_DP_SELECT ADIV5_DP_BANK1,
                 DpEvent.read ADIV6_DP_DPIDR1,
                 DpEvent.write ADIV5_DP_SELECT ADIV5_DP_BANK2,
                 DpEvent.read ADIV6_DP_BASEPTR0,
                 DpEvent.write ADIV5_DP_SELECT ADIV5_DP_BANK3,
                 DpEvent.read ADIV6_DP_BASEPTR1],
              pending := rest }).2)) := by
  have ed : d % 4294967296 = d := Nat.mod_eq_of_lt (by omega)
  have e0 : b0 % 4294967296 = b0 := Nat.mod_eq_of_lt (by omega)
  have e1 : b1 % 4294967296 = b1 := Nat.mod_eq_of_lt (by omega)
  constructor
  · intro hw
    by_cases hv : (b0 ||| b1 <<< 32) &&& ADIV6_DP_BASEPTR0_VALID = 0
    · simp [adiv6_dp_init, adiv6_dp_read_base_address, adiv5_dp_read,
        adiv5_dp_write, ed, e0, e1, hv]
    · simp [adiv6_dp_init, adiv6_dp_read_base_address, adiv5_dp_read,
        adiv5_dp_write, ed, e0, e1, hv, hw]
  · intro hv hw
    simp [adiv6_dp_init, adiv6_dp_read_base_address, adiv5_dp_read,
      adiv5_dp_write, ed, e0, e1, hv, hw]

/-- Witness for C3: `DPIDR1 = 0xa8` gives a 40-bit width; the candidate
`0x1001` with bit 0 set and no bit at or above position 40 passes the width
check and reaches the component probe (which reads the four CIDR
locations). -/
theorem claim_C3_witness :
    (0xa8 : Nat) < 2 ^ 32 ∧ (0x1001 : Nat) < 2 ^ 32 ∧ (0 : Nat) < 2 ^ 32 ∧
    ((((0x1001 : Nat) ||| (0 : Nat) <<< 32) &&&
        ((1 <<< ((0xa8 : Nat) &&& ADIV6_DP_DPIDR1_ASIZE_MASK)) - 1) ≠
          ((0x1001 : Nat) ||| (0 : Nat) <<< 32) →
      (adiv6_dp_init
          { ap_read := ApReadFn.nullHandler, ap_write := ApWriteFn.nullHandler,
            address_width := 0, rest := 7 }
          { events := [], pending := 0xa8 :: 0x1001 :: 0 :: [] }).1 = false) ∧
    (((0x1001 : Nat) ||| (0 : Nat) <<< 32) &&& ADIV6_DP_BASEPTR0_VALID ≠ 0 →
      (((0x1001 : Nat) ||| (0 : Nat) <<< 32) &&&
        ((1 <<< ((0xa8 : Nat) &&& ADIV6_DP_DPIDR1_ASIZE_MASK)) - 1) =
          ((0x1001 : Nat) ||| (0 : Nat) <<< 32)) →
      adiv6_dp_init
          { ap_read := ApReadFn.nullHandler, ap_write := ApWriteFn.nullHandler,
            address_width := 0, rest := 7 }
          { events := [], pending := 0xa8 :: 0x1001 :: 0 :: [] } =
        ((adiv6_component_probe
            { ap_read := ApReadFn.adiv6_ap_reg_read,
              ap_write := ApWriteFn.adiv6_ap_reg_write,
              address_width := (0xa8 : Nat) &&& ADIV6_DP_DPIDR1_ASIZE_MASK,
              rest := 7 }
            (((0x1001 : Nat) ||| (0 : Nat) <<< 32) &&&
              ADIV6_DP_BASE_ADDRESS_MASK) 0
            { events := [] ++
                [DpEvent.write ADIV5_DP_SELECT ADIV5_DP_BANK1,
                 DpEvent.read ADIV6_DP_DPIDR1,
                 DpEvent.write ADIV5_DP_SELECT ADIV5_DP_BANK2,
                 DpEvent.read ADIV6_DP_BASEPTR0,
                 DpEvent.write ADIV5_DP_SELECT ADIV5_DP_BANK3,
                 DpEvent.read ADIV6_DP_BASEPTR1],
              pending := [] }).1,
         { ap_read := ApReadFn.adiv6_ap_reg_read,
           ap_write := ApWriteFn.adiv6_ap_reg_write,
           address_width := (0xa8 : Nat) &&& ADIV6_DP_DPIDR1_ASIZE_MASK,
           rest := 7 },
         (adiv6_component_probe
            { ap_read := ApReadFn.adiv6_ap_reg_read,
              ap_write := ApWriteFn.adiv6_ap_reg_write,
              address_width := (0xa8 : Nat) &&& ADIV6_DP_DPIDR1_ASIZE_MASK,
              rest := 7 }
            (((0x1001 : Nat) ||| (0 : Nat) <<< 32) &&&
              ADIV6_DP_BASE_ADDRESS_MASK) 0
            { events := [] ++
                [DpEvent.write ADIV5_DP_SELECT ADIV5_DP_BANK1,
                 DpEvent.read ADIV6_DP_DPIDR1,
                 DpEvent.write ADIV5_DP_SELECT ADIV5_DP_BANK2,
                 DpEvent.read ADIV6_DP_BASEPTR0,
                 DpEvent.write ADIV5_DP_SELECT ADIV5_DP_BANK3,
                 DpEvent.read ADIV6_DP_BASEPTR1],
              pending := [] }).2))) :=
  ⟨by decide, by decide, by decide,
   claim_C3_address_width_validation
     { ap_read := ApReadFn.nullHandler, ap_write := ApWriteFn.nullHandler,
       address_width := 0, rest := 7 }
     [] 0xa8 0x1001 0 [] (by decide) (by decide) (by decide)⟩

end Adiv6
